import Mathlib

/-!
Verification development for the D20CharSheet application
(`src/streamlit_app.py`): a shallow embedding of the character record,
its derived-statistics engine (ability modifiers, saving throws, armor
class variants, attack bonuses), the hit-point heal/damage button
handlers, the tag-list insertion helper and the JSON-export key set,
together with theorems settling the specification's claims about them.
-/

/-- A Python value fed to `ability_mod` (src line 50): in the running app it
is always an `int`, but the function's `try: int(score)` also accepts a
string field value, so we embed both shapes. -/
inductive PyVal : Type
  | ival (n : Int)
  | sval (s : String)

/-- Continuation of a Python integer-literal digit run: digits, with a
single underscore allowed only between two digits (the grammar accepted
by Python's `int(str)` after the first digit). -/
def pyDigitsTail : List Char → Bool
  | [] => true
  | '_' :: c :: cs => c.isDigit && pyDigitsTail cs
  | ['_'] => false
  | c :: cs => c.isDigit && pyDigitsTail cs

/-- A full digit run for Python's `int(str)`: nonempty, starts with a digit,
then `pyDigitsTail`. -/
def pyDigitsRun : List Char → Bool
  | [] => false
  | c :: cs => c.isDigit && pyDigitsTail cs

/-- Numeric value of a digit run, skipping underscore separators. -/
def digitsToNat (cs : List Char) : Nat :=
  cs.foldl (fun a c => if c.isDigit then 10 * a + (c.toNat - 48) else a) 0

/-- Leading/trailing-whitespace stripping performed by Python's `int(str)`. -/
def pyStrip (s : String) : List Char :=
  ((s.data.dropWhile Char.isWhitespace).reverse.dropWhile Char.isWhitespace).reverse

/-- Split an optional single leading sign off the stripped character list,
returning the sign as `1` or `-1` together with the remaining body. -/
def pySign : List Char → Int × List Char
  | '+' :: rest => (1, rest)
  | '-' :: rest => (-1, rest)
  | cs => (1, cs)

/-- Python's `int(s)` on a string: strip whitespace, take an optional sign,
then require a digit run; `none` models the `ValueError` raised otherwise. -/
def pyIntOfString (s : String) : Option Int :=
  if pyDigitsRun (pySign (pyStrip s)).2 then
    some ((pySign (pyStrip s)).1 * (digitsToNat (pySign (pyStrip s)).2 : Int))
  else none

/-- Python's `int(score)` inside `ability_mod`: an `int` converts to itself,
a string goes through `pyIntOfString`; `none` models a raised exception. -/
def pyInt : PyVal → Option Int
  | .ival n => some n
  | .sval s => pyIntOfString s

/-- `ability_mod` (src lines 50-54) on an arbitrary Python value:
`try: return (int(score) - 10) // 2 except: return 0`. Python's `//` is
floor division, embedded as `Int.fdiv`. -/
def ability_mod_val (score : PyVal) : Int :=
  match pyInt score with
  | some n => Int.fdiv (n - 10) 2
  | none => 0

/-- `ability_mod` (src lines 50-54) restricted to integer scores — the path
taken by every call site in the app, all of which pass `int` totals:
`(int(score) - 10) // 2` with Python floor division. -/
def ability_mod (score : Int) : Int :=
  Int.fdiv (score - 10) 2

/-- The six ability codes (keys of `ABI_MAP`, src line 56). -/
inductive Ability : Type
  | STR | DEX | CON | INT | WIS | CHA

/-- The `Character` dataclass (src lines 98-141), fields in source order
with the source's default values. Python `None` list placeholders are
embedded as `Option`. -/
structure Character : Type where
  name : String := ""
  player : String := ""
  alignment : String := "Neutral"
  deity : String := ""
  size : String := "Medium"
  race : String := "Human"
  character_class : String := "Fighter"
  level : Int := 1
  xp : Int := 0
  age : Int := 18
  gender : String := ""
  height : String := ""
  weight : String := ""
  eyes : String := ""
  hair : String := ""
  skin : String := ""
  str_base : Int := 10
  dex_base : Int := 10
  con_base : Int := 10
  int_base : Int := 10
  wis_base : Int := 10
  cha_base : Int := 10
  str_racial : Int := 0
  dex_racial : Int := 0
  con_racial : Int := 0
  int_racial : Int := 0
  wis_racial : Int := 0
  cha_racial : Int := 0
  hp : Int := 0
  hit_die : String := "d10"
  bab : Int := 0
  ac_armor : Int := 0
  ac_shield : Int := 0
  ac_natural : Int := 0
  ac_deflection : Int := 0
  ac_misc : Int := 0
  initiative_misc : Int := 0
  hp_current : Int := 0
  hp_max : Int := 0
  hp_temp : Int := 0
  fort_base : Int := 0
  ref_base : Int := 0
  will_base : Int := 0
  save_misc : Int := 0
  speed : Int := 30
  feats : Option (List String) := none
  class_features : Option (List String) := none
  skills : Option (List (String × List (String × Int))) := none
  languages : Option (List String) := none

/-- `ability_total` (src lines 58-60): `getattr(char, f"{code}_base") +
getattr(char, f"{code}_racial")`; the dynamic attribute lookup through
`ABI_MAP` is embedded as an explicit match on the ability code. -/
def ability_total (c : Character) : Ability → Int
  | .STR => c.str_base + c.str_racial
  | .DEX => c.dex_base + c.dex_racial
  | .CON => c.con_base + c.con_racial
  | .INT => c.int_base + c.int_racial
  | .WIS => c.wis_base + c.wis_racial
  | .CHA => c.cha_base + c.cha_racial

/-- Fortitude save (src line 232):
`char.fort_base + ability_mod(ability_total(char, "CON")) + char.save_misc`. -/
def fort (c : Character) : Int :=
  c.fort_base + ability_mod (ability_total c .CON) + c.save_misc

/-- Reflex save (src line 233):
`char.ref_base + ability_mod(ability_total(char, "DEX")) + char.save_misc`. -/
def ref (c : Character) : Int :=
  c.ref_base + ability_mod (ability_total c .DEX) + c.save_misc

/-- Will save (src line 234):
`char.will_base + ability_mod(ability_total(char, "WIS")) + char.save_misc`. -/
def will (c : Character) : Int :=
  c.will_base + ability_mod (ability_total c .WIS) + c.save_misc

/-- Initiative (src line 240):
`ability_mod(ability_total(char, "DEX")) + char.initiative_misc`. -/
def ini_total (c : Character) : Int :=
  ability_mod (ability_total c .DEX) + c.initiative_misc

/-- Normal armor class (src line 250): `10 + ac_armor + ac_shield + dex_mod
+ ac_natural + ac_deflection + ac_misc`. -/
def ac_total (c : Character) : Int :=
  10 + c.ac_armor + c.ac_shield + ability_mod (ability_total c .DEX)
    + c.ac_natural + c.ac_deflection + c.ac_misc

/-- Touch armor class (src line 251): `10 + dex_mod + ac_deflection + ac_misc`. -/
def touch_ac (c : Character) : Int :=
  10 + ability_mod (ability_total c .DEX) + c.ac_deflection + c.ac_misc

/-- Flat-footed armor class (src line 252): `10 + ac_armor + ac_shield +
ac_natural + ac_deflection + ac_misc`. -/
def flat_ac (c : Character) : Int :=
  10 + c.ac_armor + c.ac_shield + c.ac_natural + c.ac_deflection + c.ac_misc

/-- Melee attack bonus (src line 268):
`char.bab + ability_mod(ability_total(char, "STR"))`. -/
def melee (c : Character) : Int :=
  c.bab + ability_mod (ability_total c .STR)

/-- Ranged attack bonus (src line 269):
`char.bab + ability_mod(ability_total(char, "DEX"))`. -/
def ranged (c : Character) : Int :=
  c.bab + ability_mod (ability_total c .DEX)

/-- Grapple attack bonus (src line 270):
`char.bab + ability_mod(ability_total(char, "STR"))`. -/
def grapple (c : Character) : Int :=
  c.bab + ability_mod (ability_total c .STR)

/-- The `hp_amount` number input (src line 194) is declared with
`min_value=0`: the widget never delivers a value below its minimum, so a
negative supplied value is clamped to `0` before the button handlers read
`st.session_state["hp_amount"]`. -/
def hp_amount_widget (supplied : Int) : Int :=
  max 0 supplied

/-- The Heal button handler (src lines 191-193):
`char.hp_current = min(char.hp_max, char.hp_current + amt)`. -/
def heal (c : Character) (amt : Int) : Character :=
  { c with hp_current := min c.hp_max (c.hp_current + amt) }

/-- The Damage button handler (src lines 195-197):
`char.hp_current = max(0, char.hp_current - amt)`. -/
def damage (c : Character) (amt : Int) : Character :=
  { c with hp_current := max 0 (c.hp_current - amt) }

/-- The submit branch of `taglist` (src lines 84-86): a nonempty submitted
value is appended only when not already present (Python `in` on a list of
strings: case-sensitive exact equality); an empty value (falsy in
`if submitted and val`) is ignored. -/
def taglist_add (tags : List String) (val : String) : List String :=
  if val ≠ "" then (if val ∈ tags then tags else tags ++ [val]) else tags

/-- Keys of `asdict(char)` (src line 337): the `Character` dataclass fields
in declaration order. -/
def asdict_keys : List String :=
  ["name", "player", "alignment", "deity", "size", "race", "character_class",
   "level", "xp", "age", "gender", "height", "weight", "eyes", "hair", "skin",
   "str_base", "dex_base", "con_base", "int_base", "wis_base", "cha_base",
   "str_racial", "dex_racial", "con_racial", "int_racial", "wis_racial",
   "cha_racial", "hp", "hit_die", "bab", "ac_armor", "ac_shield", "ac_natural",
   "ac_deflection", "ac_misc", "initiative_misc", "hp_current", "hp_max",
   "hp_temp", "fort_base", "ref_base", "will_base", "save_misc", "speed",
   "feats", "class_features", "skills", "languages"]

/-- Keys passed to `export_dict.update(...)` (src lines 338-355). -/
def update_keys : List String :=
  ["feats", "class_features", "skills_table", "spells_known",
   "spellbook_notes", "languages", "gear", "notes"]

/-- The key set of `export_dict` (src lines 337-355): `dict.update` keeps
an existing key in place and appends the genuinely new ones in order. -/
def export_keys : List String :=
  asdict_keys ++ update_keys.filter (fun k => !(asdict_keys.contains k))

/-- The spec's §4.1 modifier formula, written as the spec words it:
`floor((total_score - 10) / 2)` as a real floor over the rationals. The
spec-side of the refinement comparison against the code's `ability_mod`. -/
def spec_modifier (total_score : Int) : Int :=
  ⌊(((total_score : ℚ)) - 10) / 2⌋

/-- The scalar field names of spec §3's Character Record table (the
spec-side of the refinement comparison for the export contract of §6). -/
def spec_scalar_fields : List String :=
  ["name", "player", "alignment", "deity", "size", "race", "class", "level",
   "xp", "age", "gender", "height", "weight", "eyes", "hair", "skin",
   "str_base", "dex_base", "con_base", "int_base", "wis_base", "cha_base",
   "str_racial", "dex_racial", "con_racial", "int_racial", "wis_racial",
   "cha_racial", "hp", "hp_current", "hp_max", "hp_temp", "hit_die", "bab",
   "speed", "ac_armor", "ac_shield", "ac_natural", "ac_deflection", "ac_misc",
   "fort_base", "ref_base", "will_base", "save_misc", "initiative_misc"]

/-! ## Helper lemmas -/

/-- The code's floor-division modifier agrees with the spec's rational-floor
formula at every integer score. -/
lemma ability_mod_eq_spec (s : Int) : ability_mod s = spec_modifier s := by
  unfold ability_mod spec_modifier
  rw [Int.fdiv_eq_ediv _ (by norm_num)]
  have h : (((s : ℚ)) - 10) / 2 = ((s - 10 : ℤ) : ℚ) / ((2 : ℕ) : ℚ) := by
    push_cast; ring
  rw [h, Rat.floor_intCast_div_natCast]
  norm_num

/-- A digit run is empty or starts with a digit, so a character list with no
digit at all is rejected. -/
lemma pyDigitsRun_eq_false_of_no_digit {l : List Char}
    (h : ∀ c ∈ l, c.isDigit = false) : pyDigitsRun l = false := by
  cases l with
  | nil => rfl
  | cons c cs => simp [pyDigitsRun, h c (List.mem_cons_self c cs)]

/-- Whitespace stripping only removes characters. -/
lemma mem_pyStrip {s : String} {c : Char} (h : c ∈ pyStrip s) : c ∈ s.data := by
  unfold pyStrip at h
  rw [List.mem_reverse] at h
  have h1 := (List.dropWhile_sublist _).subset h
  rw [List.mem_reverse] at h1
  exact (List.dropWhile_sublist _).subset h1

/-- Dropping the optional sign only removes a character. -/
lemma mem_pySign_snd {l : List Char} {c : Char} (h : c ∈ (pySign l).2) :
    c ∈ l := by
  unfold pySign at h
  split at h
  · exact List.mem_cons_of_mem _ h
  · exact List.mem_cons_of_mem _ h
  · exact h

/-- `taglist_add` preserves duplicate-freeness. -/
lemma taglist_add_nodup {tags : List String} {val : String} (h : tags.Nodup) :
    (taglist_add tags val).Nodup := by
  unfold taglist_add
  split
  · split
    · exact h
    · rename_i hne hnotmem
      refine h.append (List.nodup_singleton val) ?_
      intro a ha hb
      rw [List.mem_singleton] at hb
      subst hb
      exact hnotmem ha
  · exact h

/-- Every tag list built by repeated insertion from the empty list is
duplicate-free. -/
lemma foldl_taglist_nodup : ∀ (vals acc : List String), acc.Nodup →
    (vals.foldl taglist_add acc).Nodup
  | [], _, h => h
  | _ :: vs, _, h => foldl_taglist_nodup vs _ (taglist_add_nodup h)

/-! ## Claim theorems -/

/-- C1: the ability modifier function returns `floor((s - 10) / 2)` with
floor-division semantics (rounding toward negative infinity) for every
integer total score, with the boundary values modifier(7) = -2,
modifier(10) = 0, modifier(11) = 0, modifier(9) = -1, modifier(20) = 5,
modifier(1) = -5. -/
theorem ability_mod_is_floor :
    (∀ s : Int, ability_mod s = spec_modifier s) ∧
    ability_mod 7 = -2 ∧ ability_mod 10 = 0 ∧ ability_mod 11 = 0 ∧
    ability_mod 9 = -1 ∧ ability_mod 20 = 5 ∧ ability_mod 1 = -5 :=
  ⟨ability_mod_eq_spec, by decide, by decide, by decide, by decide,
   by decide, by decide⟩

/-- C2: with the amount routed through the `min_value=0` widget (a negative
supplied amount is clamped to 0 before applying), heal sets `hp_current` to
`min(hp_max, hp_current + amount)` and damage sets it to
`max(0, hp_current - amount)`; healing at full HP and damaging at 0 HP
leave the record unchanged, and both operations are total (saturating, not
wraparound, arithmetic — they never raise). -/
theorem heal_damage_saturate (c : Character) (a : Int) :
    (heal c (hp_amount_widget a)).hp_current
        = min c.hp_max (c.hp_current + max 0 a) ∧
    (damage c (hp_amount_widget a)).hp_current
        = max 0 (c.hp_current - max 0 a) ∧
    (c.hp_current = c.hp_max → heal c (hp_amount_widget a) = c) ∧
    (c.hp_current = 0 → damage c (hp_amount_widget a) = c) := by
  refine ⟨rfl, rfl, ?_, ?_⟩
  · intro h
    have h2 : min c.hp_max (c.hp_current + hp_amount_widget a)
        = c.hp_current := by
      unfold hp_amount_widget; omega
    show { c with hp_current := min c.hp_max (c.hp_current + hp_amount_widget a) } = c
    rw [h2]
  · intro h
    have h2 : max 0 (c.hp_current - hp_amount_widget a) = c.hp_current := by
      unfold hp_amount_widget; omega
    show { c with hp_current := max 0 (c.hp_current - hp_amount_widget a) } = c
    rw [h2]

/-- C2 witness: the spec's boundary scenarios — hp_max=20, hp_current=18,
heal(10) gives 20; hp_current=5, damage(10) gives 0; healing at full HP is
a no-op. -/
theorem heal_damage_saturate_witness :
    (heal { hp_max := 20, hp_current := 18 } (hp_amount_widget 10)).hp_current
        = 20 ∧
    (damage { hp_current := 5 } (hp_amount_widget 10)).hp_current = 0 ∧
    heal { hp_max := 20, hp_current := 20 } (hp_amount_widget 3)
        = { hp_max := 20, hp_current := 20 } := by
  refine ⟨?_, ?_, ?_⟩
  · exact (heal_damage_saturate { hp_max := 20, hp_current := 18 }
      10).1.trans (by decide)
  · exact (heal_damage_saturate { hp_current := 5 } 10).2.1.trans (by decide)
  · exact (heal_damage_saturate { hp_max := 20, hp_current := 20 } 3).2.2.1 rfl

/-- C3: the three saving throws equal base + modifier(ability total of the
governing ability) + save_misc with Fortitude governed by CON, Reflex by
DEX, Will by WIS; the single `save_misc` is added identically to all three,
and the ability total used is base + racial with no clamping. -/
theorem saves_formula (c : Character) :
    fort c = c.fort_base + spec_modifier (c.con_base + c.con_racial)
        + c.save_misc ∧
    ref c = c.ref_base + spec_modifier (c.dex_base + c.dex_racial)
        + c.save_misc ∧
    will c = c.will_base + spec_modifier (c.wis_base + c.wis_racial)
        + c.save_misc ∧
    ability_total c .CON = c.con_base + c.con_racial ∧
    ability_total c .DEX = c.dex_base + c.dex_racial ∧
    ability_total c .WIS = c.wis_base + c.wis_racial := by
  refine ⟨?_, ?_, ?_, rfl, rfl, rfl⟩
  · simp [fort, ability_total, ability_mod_eq_spec]
  · simp [ref, ability_total, ability_mod_eq_spec]
  · simp [will, ability_total, ability_mod_eq_spec]

/-- C4: the three armor-class variants are computed exactly by the spec's
formulas, each independently from the component fields. -/
theorem ac_variants_formula (c : Character) :
    ac_total c = 10 + c.ac_armor + c.ac_shield
        + spec_modifier (c.dex_base + c.dex_racial)
        + c.ac_natural + c.ac_deflection + c.ac_misc ∧
    touch_ac c = 10 + spec_modifier (c.dex_base + c.dex_racial)
        + c.ac_deflection + c.ac_misc ∧
    flat_ac c = 10 + c.ac_armor + c.ac_shield + c.ac_natural
        + c.ac_deflection + c.ac_misc := by
  refine ⟨?_, ?_, rfl⟩
  · simp [ac_total, ability_total, ability_mod_eq_spec]
  · simp [touch_ac, ability_total, ability_mod_eq_spec]

/-- C5: melee_attack = bab + modifier(STR total), ranged_attack = bab +
modifier(DEX total), grapple_attack = bab + modifier(STR total), so grapple
equals melee on every record; on str_base=16, str_racial=2, bab=5 the melee
attack is 9 and on dex_base=14, dex_racial=0 the ranged attack is 7. -/
theorem attack_bonus_formula (c : Character) :
    melee c = c.bab + spec_modifier (c.str_base + c.str_racial) ∧
    ranged c = c.bab + spec_modifier (c.dex_base + c.dex_racial) ∧
    grapple c = c.bab + spec_modifier (c.str_base + c.str_racial) ∧
    grapple c = melee c ∧
    melee { str_base := 16, str_racial := 2, dex_base := 14,
            dex_racial := 0, bab := 5 } = 9 ∧
    ranged { str_base := 16, str_racial := 2, dex_base := 14,
             dex_racial := 0, bab := 5 } = 7 := by
  refine ⟨?_, ?_, ?_, rfl, by decide, by decide⟩
  · simp [melee, ability_total, ability_mod_eq_spec]
  · simp [ranged, ability_total, ability_mod_eq_spec]
  · simp [grapple, ability_total, ability_mod_eq_spec]

/-- C6: an input that cannot be interpreted as an integer makes
`ability_mod` return 0 instead of propagating a fault, and in particular
every string with no digit at all — non-numeric text or an empty field —
cannot be interpreted as an integer. -/
theorem ability_mod_nonnumeric_zero :
    (∀ v : PyVal, pyInt v = none → ability_mod_val v = 0) ∧
    (∀ s : String, (∀ c ∈ s.data, c.isDigit = false) →
      pyIntOfString s = none) := by
  constructor
  · intro v hv
    unfold ability_mod_val
    rw [hv]
  · intro s hs
    have hmem : ∀ c ∈ (pySign (pyStrip s)).2, c.isDigit = false :=
      fun c hc => hs c (mem_pyStrip (mem_pySign_snd hc))
    have hrun := pyDigitsRun_eq_false_of_no_digit hmem
    simp [pyIntOfString, hrun]

/-- C6 witness: the modifier of the non-numeric text "abc" and of an empty
field is 0. -/
theorem ability_mod_nonnumeric_zero_witness :
    ability_mod_val (PyVal.sval "abc") = 0 ∧
    ability_mod_val (PyVal.sval "") = 0 := by
  refine ⟨?_, ?_⟩
  · exact ability_mod_nonnumeric_zero.1 (PyVal.sval "abc")
      (ability_mod_nonnumeric_zero.2 "abc" (by decide))
  · exact ability_mod_nonnumeric_zero.1 (PyVal.sval "")
      (ability_mod_nonnumeric_zero.2 "" (by decide))

/-- C7: for every record, ac_normal - ac_touch = ac_armor + ac_shield +
ac_natural — the DEX modifier, deflection and misc terms cancel. -/
theorem ac_normal_sub_touch (c : Character) :
    ac_total c - touch_ac c = c.ac_armor + c.ac_shield + c.ac_natural := by
  unfold ac_total touch_ac
  ring

/-- C8 counterexample: §3 names the class field `class`, but no `class` key
exists in the export object — the dataclass field, and hence the flattened
key, is `character_class`. -/
theorem export_missing_class_key :
    ("class" : String) ∈ spec_scalar_fields ∧
    ("class" : String) ∉ export_keys := by decide

/-- C8 (amended): every §3 scalar field name except `class` appears as a
top-level export key; the class field is exported under the dataclass
spelling `character_class`; and the feats, class_features, skills_table,
spells_known, spellbook_notes, languages, gear and notes keys are all
present. -/
theorem export_keys_amended_holds :
    (∀ k ∈ spec_scalar_fields, k ≠ "class" → k ∈ export_keys) ∧
    ("character_class" : String) ∈ export_keys ∧
    (∀ k ∈ update_keys, k ∈ export_keys) := by decide

/-- C8 witness: the `name` field is among the export keys. -/
theorem export_keys_amended_witness : ("name" : String) ∈ export_keys :=
  export_keys_amended_holds.1 "name" (by decide) (by decide)

/-- C9: inserting a non-empty value that is already present in a tag list
is a silent no-op — the list is unchanged and, on the duplicate-free lists
the taglist widget builds, the value appears exactly once; membership is
case-sensitive exact string match and duplicate insertion is never an
error. -/
theorem taglist_duplicate_noop (tags : List String) (val : String)
    (vals : List String) (hne : val ≠ "") (hmem : val ∈ tags) :
    taglist_add tags val = tags ∧
    (tags.Nodup → (taglist_add tags val).count val = 1) ∧
    (List.foldl taglist_add [] vals).Nodup := by
  have heq : taglist_add tags val = tags := by
    unfold taglist_add
    rw [if_pos hne, if_pos hmem]
  refine ⟨heq, ?_, foldl_taglist_nodup vals [] List.nodup_nil⟩
  intro hnd
  rw [heq]
  exact List.count_eq_one_of_mem hnd hmem

/-- C9 witness: inserting "Power Attack" into a feats list already holding
it leaves a single entry. -/
theorem taglist_duplicate_noop_witness :
    taglist_add ["Power Attack"] "Power Attack" = ["Power Attack"] ∧
    (taglist_add ["Power Attack"] "Power Attack").count "Power Attack" = 1 := by
  have h := taglist_duplicate_noop ["Power Attack"] "Power Attack" []
    (by decide) (by decide)
  exact ⟨h.1, h.2.1 (List.nodup_singleton _)⟩

/-- C10: heal and damage mutate only `hp_current` — each result equals the
starting record with only that field replaced, so every other field
(hp_max, hp_temp, ability scores, AC components, save bases, bab, ...) is
unchanged. -/
theorem heal_damage_frame (c : Character) (amt : Int) :
    heal c amt = { c with hp_current := (heal c amt).hp_current } ∧
    damage c amt = { c with hp_current := (damage c amt).hp_current } ∧
    (heal c amt).hp_max = c.hp_max ∧ (heal c amt).hp_temp = c.hp_temp ∧
    (heal c amt).str_base = c.str_base ∧ (heal c amt).bab = c.bab ∧
    (damage c amt).hp_max = c.hp_max ∧ (damage c amt).hp_temp = c.hp_temp ∧
    (damage c amt).fort_base = c.fort_base ∧
    (damage c amt).ac_armor = c.ac_armor :=
  ⟨rfl, rfl, rfl, rfl, rfl, rfl, rfl, rfl, rfl, rfl⟩
